import Mathlib

/-!
Shallow embedding of `src/zabwrap.py`, a ZFS autobackup wrapper script.

Strings are modelled as `List Char` (extracted from Lean string literals by
`String.data`). External subprocess calls (`zfs get`, `zfs set`,
`zfs-autobackup`, the lock file operations) are modelled as follows:

* the three per-filesystem tag values that `zabwrap` reads via `zfs get`
  (the `autobackup:<name>` inclusion flag, `zab:backuptype`, `zab:server`)
  are inputs, collected in `FsTags`; each field holds the already
  `.strip()`-ed stdout of the corresponding `zfs get` call;
* observable external actions (running the backup tool, printing the
  command in dry-run mode, writing a `zab:lastbackup` status tag, reading
  the destination tag, and the various error/exclusion reports) are `Event`
  values; every function returns the list of events it performs, in order;
* the return code and stderr of executing the backup tool live in a `World`
  oracle, since they are decided outside the script;
* console-only prints that carry no state (colour output, the debug line
  controlled by `--debug`, echoing subprocess stdout/stderr) are not
  modelled as events.
-/

namespace Zabwrap

/-- Python `s.replace(old, new)` where `old` is a single character:
each occurrence of that character is replaced by the string `new`. -/
def pyReplaceChar (old : Char) (new : List Char) : List Char → List Char
  | [] => []
  | c :: rest => (if c = old then new else [c]) ++ pyReplaceChar old new rest

/-- Boolean "needle is a prefix of haystack" on character lists. -/
def startsWith : List Char → List Char → Bool
  | [], _ => true
  | _ :: _, [] => false
  | a :: as, b :: bs => a = b && startsWith as bs

/-- Python `needle in hay` for strings: substring containment. -/
def containsSub (needle : List Char) : List Char → Bool
  | [] => startsWith needle []
  | c :: rest => startsWith needle (c :: rest) || containsSub needle rest

/-- Python `s.split(sep)` for a single-character separator: always returns
at least one (possibly empty) field. -/
def splitOnChar (sep : Char) : List Char → List (List Char)
  | [] => [[]]
  | c :: cs =>
    match splitOnChar sep cs with
    | [] => [[]]
    | r :: rs => if c = sep then [] :: r :: rs else (c :: r) :: rs

/-- Python `s.strip(chars)`: remove leading and trailing characters that
belong to `chars`. -/
def stripChars (chars : List Char) (s : List Char) : List Char :=
  ((s.dropWhile (fun c => c ∈ chars)).reverse.dropWhile (fun c => c ∈ chars)).reverse

/-- Python `re.sub(r'[A-Z]', to_lowercase, s)`: lower-case the ASCII
upper-case letters, leave everything else unchanged. -/
def lowerAZ (s : List Char) : List Char :=
  s.map (fun c => if 'A' ≤ c ∧ c ≤ 'Z' then Char.ofNat (c.toNat + 32) else c)

/-- The static `BACKUP_TYPES` table of the script: backup type name to
retention specification string. -/
def BACKUP_TYPES : List (List Char × List Char) :=
  [("one".data, "175,1h5d,1w1y".data),
   ("r2".data, "652,1h10d,1d1y".data),
   ("r1".data, "651,1h10d,1d1y".data),
   ("r0".data, "0".data),
   ("sandbox".data, "250,1h10d".data),
   ("raid-sandbox".data, "10,1h10d".data),
   ("scratch".data, "".data)]

/-- Association-list lookup used to model Python dict membership and
indexing on `BACKUP_TYPES` (its keys are distinct). -/
def assocFind (k : List Char) : List (List Char × List Char) → Option (List Char)
  | [] => none
  | p :: rest => if p.1 = k then some p.2 else assocFind k rest

/-- `backupfstype in BACKUP_TYPES` / `BACKUP_TYPES[backupfstype]`. -/
def lookupType (k : List Char) : Option (List Char) :=
  assocFind k BACKUP_TYPES

/-- The per-filesystem tag values read by the script, as already-stripped
stdout of the corresponding `zfs get` calls. -/
structure FsTags where
  /-- value of the `autobackup:<normalized-name>` inclusion tag -/
  inclusion : List Char
  /-- value of the `zab:backuptype` tag -/
  backuptype : List Char
  /-- value of the `zab:server` destination tag -/
  server : List Char
  deriving DecidableEq

/-- Results of running the external backup tool, decided outside the
script: return code and stderr text of a given command line. -/
structure World where
  execRC : List (List Char) → Int
  execErr : List (List Char) → List Char

/-- Observable external actions of the script, in program order. -/
inductive Event where
  /-- live execution of the backup tool with the given argument list -/
  | exec (parts : List (List Char))
  /-- dry-run print of the retention and the joined command -/
  | dryPrint (retention : List Char) (parts : List (List Char))
  /-- `zfs set zab:lastbackup=...` on `fs`; the stored string is
  `"<status> at <timestamp>: <message>"` with the timestamp taken from
  the clock, so only status word and message are modelled -/
  | setProp (fs status message : List Char)
  /-- `zfs get zab:server` read of the destination tag of `fs` -/
  | readDest (fs : List Char)
  /-- `logging.error` + print for a malformed `zab:server` entry -/
  | errServer (entry : List Char)
  /-- `logging.error` + print for an unknown backup type on `fs` -/
  | errUnknownType (fs : List Char)
  /-- yellow "filesystem backup type is scratch" exclusion report -/
  | scratchNote (fs : List Char)
  /-- red "filesystem autobackup:zab not defined" orphan report -/
  | orphanErr (fs : List Char)
  deriving DecidableEq

/-- `run_backup`: build the remote backup command line and either print it
(dry run) or execute it, then record the outcome on the filesystem.
The base list is written exactly as in the source, including its repeated
`--strip-path 1` and its unconditional `--other-snapshots`. -/
def backupCommandParts (zabselect path retention server : List Char)
    (include_snapshots : Bool) : List (List Char) :=
  ["/usr/local/bin/zfs-autobackup".data,
   zabselect,
   path,
   "--verbose".data,
   "--keep-source".data,
   retention,
   "--ssh-target".data,
   server,
   "--keep-target".data,
   retention,
   "--strip-path".data,
   "1".data,
   "--other-snapshots".data,
   "--strip-path".data,
   "1".data,
   "--destroy-incompatible".data]
  ++ (if include_snapshots then ["--other-snapshots".data] else [])

def run_backup (w : World) (dry_run : Bool)
    (fs zabselect server retention path : List Char)
    (include_snapshots : Bool) : List Event :=
  let command_parts := backupCommandParts zabselect path retention server include_snapshots
  if dry_run then
    [Event.dryPrint retention command_parts,
     Event.setProp fs "dry-run".data "No actual backup performed".data]
  else
    Event.exec command_parts ::
      (if w.execRC command_parts = 0 then
        [Event.setProp fs "success".data "Backup successful".data]
      else
        [Event.setProp fs "failed".data
          ("Backup failed: ".data ++ w.execErr command_parts)])

/-- `run_sandbox_backup`: build the local-only command line (no
`--ssh-target`, no path argument) and either print or execute it. -/
def sandboxCommandParts (zabselect retention : List Char) : List (List Char) :=
  ["/usr/local/bin/zfs-autobackup".data,
   zabselect,
   "--verbose".data,
   "--keep-source".data,
   retention]

def run_sandbox_backup (w : World) (dry_run : Bool)
    (fs zabselect retention : List Char) : List Event :=
  let command_parts := sandboxCommandParts zabselect retention
  if dry_run then
    [Event.dryPrint retention command_parts,
     Event.setProp fs "dry-run".data "No actual backup performed".data]
  else
    Event.exec command_parts ::
      (if w.execRC command_parts = 0 then
        [Event.setProp fs "success".data "Backup successful".data]
      else
        [Event.setProp fs "failed".data
          ("Backup failed: ".data ++ w.execErr command_parts)])

/-- One destination entry of the comma-split `zab:server` list:
`server, path = server.split(':')` succeeds exactly when the split has two
fields (a `ValueError` on any other arity leaves the loop variable at the
original entry, which is what the error report prints and logs). -/
def destEntryEvents (w : World) (dry_run include_snapshots : Bool)
    (fs zabselect retention : List Char) (entry : List Char) : List Event :=
  match splitOnChar ':' entry with
  | [server, path] =>
      run_backup w dry_run fs zabselect server retention
        (pyReplaceChar '-' "/".data path) include_snapshots
  | _ => [Event.errServer entry]

/-- The normalized tag-name / selector: `fs.replace("/", "-")` lower-cased
by `re.sub(r'[A-Z]', to_lowercase, ...)`. -/
def zabselectOf (fs : List Char) : List Char :=
  lowerAZ (pyReplaceChar '/' "-".data fs)

/-- The body of `zabwrap`'s backup-mode loop for one filesystem: decide
from the tag values whether and how to back it up, returning the events in
program order. In the source `include_snapshots` is re-read from the
global `args` inside the loop; it is the same value as the parameter. -/
def processFs (w : World) (dry_run include_snapshots : Bool)
    (fs : List Char) (tags : FsTags) : List Event :=
  let zabselect := zabselectOf fs
  if containsSub "true".data tags.inclusion then
    match lookupType tags.backuptype with
    | some retention =>
      if tags.backuptype = "scratch".data then
        [Event.scratchNote fs]
      else if tags.backuptype = "sandbox".data then
        run_sandbox_backup w dry_run fs zabselect ((lookupType "sandbox".data).getD [])
      else
        let backupdest := stripChars "[ ]\n".data tags.server
        let backupServers := splitOnChar ',' backupdest
        Event.readDest fs ::
          backupServers.flatMap
            (destEntryEvents w dry_run include_snapshots fs zabselect retention)
    | none => [Event.errUnknownType fs]
  else []

/-- Backup mode of `zabwrap`: iterate `processFs` over the inventory (from
`get_zfs_fs_list()` or the `--limit` list), each filesystem paired with
its tag values. -/
def zabwrapNormal (w : World) (dry_run include_snapshots : Bool)
    (fss : List (List Char × FsTags)) : List Event :=
  fss.flatMap (fun p => processFs w dry_run include_snapshots p.1 p.2)

/-- `check_orphans` (orphan/audit mode, one filesystem): `backupfstype` is
the stripped `zfs get zab:backuptype` output, `tagVal` gives the stripped
value of any named property on `fs`, `result` is the inventory. The
source initialises `zfsautobackup = "false"`, sets it to `"true"` (and
breaks) when some `autobackup:<j>` value contains `"true"`, and then
tests `"false" in zfsautobackup`, which on those two strings is exactly
"no match was found". Note the tag name here is not lower-cased. -/
def check_orphans (fs : List Char) (backupfstype : List Char)
    (tagVal : List Char → List Char) (result : List (List Char)) : List Event :=
  let found := result.any
    (fun j => containsSub "true".data (tagVal ("autobackup:".data ++ pyReplaceChar '/' "-".data j)))
  if !found then
    if containsSub "scratch".data backupfstype then [Event.scratchNote fs]
    else [Event.orphanErr fs]
  else if containsSub "scratch".data backupfstype then [Event.scratchNote fs]
  else []

/-- `acquire_lock`: with the lock marker present, log a fatal error and
`sys.exit(1)` (`none`); otherwise create the marker (lock now exists:
`some true`). -/
def acquire_lock (lockExists : Bool) : Option Bool :=
  if lockExists then none else some true

/-- `release_lock`: remove the marker if it exists; afterwards it never
exists. -/
def release_lock (_lockExists : Bool) : Bool :=
  false

/-- The `__main__` block: `acquire_lock` inside `try`, argument parsing
and `zabwrap` in the body, `release_lock` in `finally` (which also runs
when `acquire_lock` raised `SystemExit(1)`, before the process exits).
Arguments are assumed well-formed. Result: (exit code, whether the lock
marker exists afterwards, events performed by `zabwrap`). -/
def mainModel (lockExists : Bool) (body : List Event) : Nat × Bool × List Event :=
  match acquire_lock lockExists with
  | none => (1, release_lock lockExists, [])
  | some lockHeld => (0, release_lock lockHeld, body)

/-- The sanitisation applied in `send_to_zabbix` before the value is
embedded in the sender command:
`value.replace('\n', '\\n').replace('"', '').replace('\\', '\\\\')`. -/
def sanitized_value (value : List Char) : List Char :=
  pyReplaceChar '\\' "\\\\".data
    (pyReplaceChar '"' []
      (pyReplaceChar '\n' "\\n".data value))

/-- Event classifiers used by the statements. -/
def isExec : Event → Bool
  | .exec _ => true
  | _ => false

/-- An "invocation of the backup tool": the command was built and either
executed (live) or printed (dry run). -/
def isInvoc : Event → Bool
  | .exec _ => true
  | .dryPrint _ _ => true
  | _ => false

def isOrphanErr : Event → Bool
  | .orphanErr _ => true
  | _ => false

def isErrServer : Event → Bool
  | .errServer _ => true
  | _ => false

def isReadDest : Event → Bool
  | .readDest _ => true
  | _ => false

/-- The status-tag writes among a list of events, as (fs, status, message)
triples. -/
def setProps (es : List Event) : List (List Char × List Char × List Char) :=
  es.filterMap (fun e =>
    match e with
    | .setProp f s m => some (f, s, m)
    | _ => none)

/-- The command lines of the backup-tool invocations among a list of
events (executed live or printed in dry-run mode). -/
def invocCmds (es : List Event) : List (List (List Char)) :=
  es.filterMap (fun e =>
    match e with
    | .exec parts => some parts
    | .dryPrint _ parts => some parts
    | _ => none)

/-- Dry-run frame condition on one event: it is not a live execution of
the backup tool, and if it is a status-tag write then it writes the
`dry-run` status with the no-action message onto `fs` itself. -/
def dryRunFrameOk (fs : List Char) (e : Event) : Bool :=
  !isExec e &&
    (match e with
     | .setProp f s m =>
        decide (f = fs) && decide (s = "dry-run".data) &&
          decide (m = "No actual backup performed".data)
     | _ => true)

/-- Every maximal run of backslashes has even length: each backslash is
the first or second character of an escaped-backslash pair. -/
inductive EscOk : List Char → Prop
  | nil : EscOk []
  | cons {c : Char} {rest : List Char} : c ≠ '\\' → EscOk rest → EscOk (c :: rest)
  | esc {rest : List Char} : EscOk rest → EscOk ('\\' :: '\\' :: rest)

/-- A fixed world for concrete evaluations: the backup tool always
succeeds. -/
def w0 : World := ⟨fun _ => 0, fun _ => []⟩

example : containsSub "true".data "untrue".data = true := by decide
example : containsSub "true".data "false".data = false := by decide
example : splitOnChar ':' "h1:data-a".data = ["h1".data, "data-a".data] := by decide
example : splitOnChar ':' "hostonly".data = ["hostonly".data] := by decide
example : lookupType "raid-sandbox".data = some "10,1h10d".data := by decide
example : lookupType "bogus".data = none := by decide
example :
    (processFs w0 false false "pool/a".data
      ⟨"untrue".data, "sandbox".data, "".data⟩).any isInvoc = true := by decide
example :
    stripChars "[ ]\n".data "[ h1:data-a ]".data = "h1:data-a".data := by decide
example : zabselectOf "pool/A".data = "pool-a".data := by decide

/-! ### Helper lemmas -/

lemma invocCmds_run_backup (w : World) (dry : Bool)
    (fs zabselect server retention path : List Char) (inc : Bool) :
    invocCmds (run_backup w dry fs zabselect server retention path inc) =
      [backupCommandParts zabselect path retention server inc] := by
  unfold run_backup invocCmds
  cases dry
  · simp
    split <;> simp
  · simp

lemma invocCmds_run_sandbox_backup (w : World) (dry : Bool)
    (fs zabselect retention : List Char) :
    invocCmds (run_sandbox_backup w dry fs zabselect retention) =
      [sandboxCommandParts zabselect retention] := by
  unfold run_sandbox_backup invocCmds
  cases dry
  · simp
    split <;> simp
  · simp

lemma run_backup_any_isInvoc (w : World) (dry : Bool)
    (fs zabselect server retention path : List Char) (inc : Bool) :
    (run_backup w dry fs zabselect server retention path inc).any isInvoc = true := by
  unfold run_backup
  cases dry
  · simp [isInvoc]
  · simp [isInvoc]

lemma run_backup_any_isErrServer (w : World) (dry : Bool)
    (fs zabselect server retention path : List Char) (inc : Bool) :
    (run_backup w dry fs zabselect server retention path inc).any isErrServer = false := by
  unfold run_backup
  cases dry
  · simp [isErrServer]
    split <;> simp [isErrServer]
  · simp [isErrServer]

lemma run_sandbox_backup_any_isReadDest (w : World) (dry : Bool)
    (fs zabselect retention : List Char) :
    (run_sandbox_backup w dry fs zabselect retention).any isReadDest = false := by
  unfold run_sandbox_backup
  cases dry
  · simp [isReadDest]
    split <;> simp [isReadDest]
  · simp [isReadDest]

lemma mem_pyReplaceChar {x : Char} {old : Char} {new s : List Char}
    (h : x ∈ pyReplaceChar old new s) : x ∈ new ∨ (x ∈ s ∧ x ≠ old) := by
  induction s with
  | nil => simp [pyReplaceChar] at h
  | cons c rest ih =>
    unfold pyReplaceChar at h
    rcases List.mem_append.mp h with h1 | h2
    · by_cases hc : c = old
      · subst hc
        simp [if_pos rfl] at h1
        exact Or.inl h1
      · simp [if_neg hc] at h1
        refine Or.inr ⟨?_, ?_⟩ <;> simp [h1, hc]
    · rcases ih h2 with hn | ⟨hs, hx⟩
      · exact Or.inl hn
      · exact Or.inr ⟨List.mem_cons_of_mem c hs, hx⟩

lemma escOk_pyReplaceChar (s : List Char) :
    EscOk (pyReplaceChar '\\' "\\\\".data s) := by
  induction s with
  | nil => exact EscOk.nil
  | cons c rest ih =>
    unfold pyReplaceChar
    by_cases hc : c = '\\'
    · subst hc
      simpa using EscOk.esc ih
    · simpa [if_neg hc] using EscOk.cons hc ih

/-! ### Claims -/

/-- C1 counterexample: the inclusion tag value `"untrue"` is not exactly
`"true"`, yet the backup pass still produces an invocation of the backup
tool for the filesystem (the source tests `"true" in backupsfs`, a
substring match). -/
theorem C1_counterexample :
    "untrue".data ≠ "true".data ∧
    (processFs w0 false false "pool/a".data
        ⟨"untrue".data, "sandbox".data, "".data⟩).any isInvoc = true := by
  decide

/-- C1 (amended): for every filesystem whose inclusion tag value does not
contain `"true"` as a substring, the backup pass produces no events at
all for that filesystem — in particular no invocation of the backup
tool. -/
theorem C1_no_true_substring_no_invocation (w : World)
    (dry_run include_snapshots : Bool) (fs : List Char) (tags : FsTags)
    (h : containsSub "true".data tags.inclusion = false) :
    processFs w dry_run include_snapshots fs tags = [] := by
  simp [processFs, h]

theorem C1_witness :
    containsSub "true".data "false".data = false ∧
    processFs w0 false false "pool/a".data ⟨"false".data, "one".data, "".data⟩ = [] :=
  ⟨by decide,
   C1_no_true_substring_no_invocation w0 false false "pool/a".data
     ⟨"false".data, "one".data, "".data⟩ (by decide)⟩

/-- C3: the `--other-snapshots` flag is present in the constructed remote
backup command even when the caller did not request snapshot inclusion:
it sits unconditionally in the base list of `run_backup`'s
`command_parts`, so the `include_snapshots` option only adds a duplicate.
Shown at `include_snapshots = false` both on the command builder and on
the command line of the produced invocation event. -/
theorem C3_other_snapshots_always_present (w : World)
    (fs zabselect server retention path : List Char) :
    "--other-snapshots".data ∈ backupCommandParts zabselect path retention server false ∧
    invocCmds (run_backup w false fs zabselect server retention path false) =
      [backupCommandParts zabselect path retention server false] := by
  refine ⟨?_, invocCmds_run_backup w false fs zabselect server retention path false⟩
  simp [backupCommandParts]

/-- C7: whenever the lock marker already exists at startup, the run exits
with code 1 and performs no filesystem processing at all: no inventory
listing, tag read, or backup invocation happens (the event list of the
run is empty, since `sys.exit(1)` fires inside `acquire_lock`, before
`zabwrap` is ever called). -/
theorem C7_lock_held_exits_before_processing (body : List Event) :
    (mainModel true body).1 = 1 ∧ (mainModel true body).2.2 = [] :=
  ⟨rfl, rfl⟩

/-- C10: when the lock marker exists at startup, the failed run's
`finally: release_lock(...)` removes the pre-existing marker before the
process exits, so afterwards the marker no longer exists and a subsequent
run's `acquire_lock` succeeds. -/
theorem C10_failed_acquire_removes_marker (body : List Event) :
    (mainModel true body).2.1 = false ∧
    acquire_lock ((mainModel true body).2.1) = some true :=
  ⟨rfl, rfl⟩

/-- C9: for every metric value string, the sanitised payload built in
`send_to_zabbix` contains no newline character, no double-quote
character, and no unescaped backslash (every backslash belongs to an
escaped `\\` pair). -/
theorem C9_sanitized_value_wellformed (value : List Char) :
    '\n' ∉ sanitized_value value ∧
    '"' ∉ sanitized_value value ∧
    EscOk (sanitized_value value) := by
  unfold sanitized_value
  refine ⟨?_, ?_, escOk_pyReplaceChar _⟩
  · intro h
    rcases mem_pyReplaceChar h with h1 | ⟨h2, -⟩
    · simp [String.data] at h1
    · rcases mem_pyReplaceChar h2 with h3 | ⟨h4, -⟩
      · simp at h3
      · rcases mem_pyReplaceChar h4 with h5 | ⟨-, h6⟩
        · simp [String.data] at h5
        · exact h6 rfl
  · intro h
    rcases mem_pyReplaceChar h with h1 | ⟨h2, -⟩
    · simp [String.data] at h1
    · rcases mem_pyReplaceChar h2 with h3 | ⟨-, h4⟩
      · simp at h3
      · exact h4 rfl

/-- C2 counterexample: `"raid-sandbox"` is a table key containing the
substring `"sandbox"`, yet with inclusion `"true"` and backup type
`"raid-sandbox"` the run reads the destination tag and builds a remote
invocation (with `--ssh-target`), not a local-only one: the source
compares `backupfstype == "sandbox"` exactly. -/
theorem C2_counterexample :
    containsSub "sandbox".data "raid-sandbox".data = true ∧
    (lookupType "raid-sandbox".data).isSome = true ∧
    (processFs w0 false false "pool/a".data
        ⟨"true".data, "raid-sandbox".data, "h1:data-a".data⟩).any isReadDest = true ∧
    "--ssh-target".data ∈
      backupCommandParts "pool-a".data "data/a".data "10,1h10d".data "h1".data false ∧
    processFs w0 false false "pool/a".data
        ⟨"true".data, "raid-sandbox".data, "h1:data-a".data⟩ =
      [Event.readDest "pool/a".data,
       Event.exec (backupCommandParts "pool-a".data "data/a".data "10,1h10d".data "h1".data false),
       Event.setProp "pool/a".data "success".data "Backup successful".data] := by
  decide

/-- C2 (amended): for every included filesystem whose backup-type tag is
exactly `"sandbox"`, the result is the local-only sandbox invocation with
the table retention `BACKUP_TYPES["sandbox"] = "250,1h10d"`: its command
line has no destination-host argument and no path argument, and the
destination tag is never read. (`"raid-sandbox"` instead takes the remote
path, as the counterexample shows.) -/
theorem C2_sandbox_exact_local_only (w : World) (dry_run include_snapshots : Bool)
    (fs : List Char) (tags : FsTags)
    (hinc : containsSub "true".data tags.inclusion = true)
    (hty : tags.backuptype = "sandbox".data) :
    processFs w dry_run include_snapshots fs tags =
      run_sandbox_backup w dry_run fs (zabselectOf fs) "250,1h10d".data ∧
    invocCmds (processFs w dry_run include_snapshots fs tags) =
      [["/usr/local/bin/zfs-autobackup".data, zabselectOf fs,
        "--verbose".data, "--keep-source".data, "250,1h10d".data]] ∧
    (processFs w dry_run include_snapshots fs tags).any isReadDest = false := by
  have hlook : lookupType "sandbox".data = some "250,1h10d".data := by decide
  have hne : "sandbox".data ≠ "scratch".data := by decide
  have h1 : processFs w dry_run include_snapshots fs tags =
      run_sandbox_backup w dry_run fs (zabselectOf fs) "250,1h10d".data := by
    simp [processFs, hinc, hty, hlook, hne]
  refine ⟨h1, ?_, ?_⟩
  · rw [h1, invocCmds_run_sandbox_backup]
    rfl
  · rw [h1]
    exact run_sandbox_backup_any_isReadDest w dry_run fs (zabselectOf fs) "250,1h10d".data

theorem C2_witness :
    processFs w0 true false "pool/b".data ⟨"true".data, "sandbox".data, "".data⟩ =
      run_sandbox_backup w0 true "pool/b".data (zabselectOf "pool/b".data) "250,1h10d".data ∧
    invocCmds (processFs w0 true false "pool/b".data ⟨"true".data, "sandbox".data, "".data⟩) =
      [["/usr/local/bin/zfs-autobackup".data, zabselectOf "pool/b".data,
        "--verbose".data, "--keep-source".data, "250,1h10d".data]] ∧
    (processFs w0 true false "pool/b".data
        ⟨"true".data, "sandbox".data, "".data⟩).any isReadDest = false :=
  C2_sandbox_exact_local_only w0 true false "pool/b".data
    ⟨"true".data, "sandbox".data, "".data⟩ (by decide) rfl

/-- C4: a filesystem whose backup-type tag is `"scratch"` never yields a
backup invocation (its backup-mode events contain no invocation and no
orphan report; when its inclusion tag matches, it is reported with the
yellow scratch exclusion note), and in orphan/audit mode `check_orphans`
always reports it with the scratch exclusion note and never as
orphaned. -/
theorem C4_scratch_excluded_never_invoked (w : World) (dry inc : Bool)
    (fs : List Char) (tags : FsTags) (tagVal : List Char → List Char)
    (result : List (List Char))
    (h : tags.backuptype = "scratch".data) :
    (processFs w dry inc fs tags).any isInvoc = false ∧
    (processFs w dry inc fs tags).any isOrphanErr = false ∧
    (containsSub "true".data tags.inclusion = true →
      processFs w dry inc fs tags = [Event.scratchNote fs]) ∧
    check_orphans fs tags.backuptype tagVal result = [Event.scratchNote fs] := by
  have hlook : lookupType "scratch".data = some "".data := by decide
  have hproc : processFs w dry inc fs tags = [] ∨
      processFs w dry inc fs tags = [Event.scratchNote fs] := by
    unfold processFs
    cases hb : containsSub "true".data tags.inclusion
    · left
      simp
    · right
      simp [h, hlook]
  have hsc : containsSub "scratch".data "scratch".data = true := by decide
  refine ⟨?_, ?_, ?_, ?_⟩
  · rcases hproc with h2 | h2 <;> simp [h2, isInvoc]
  · rcases hproc with h2 | h2 <;> simp [h2, isOrphanErr]
  · intro hb
    unfold processFs
    simp [hb, h, hlook]
  · rw [h]
    simp [check_orphans, hsc]

theorem C4_witness :
    (processFs w0 false false "pool/c".data
        ⟨"true".data, "scratch".data, "".data⟩).any isInvoc = false ∧
    (processFs w0 false false "pool/c".data
        ⟨"true".data, "scratch".data, "".data⟩).any isOrphanErr = false ∧
    (containsSub "true".data "true".data = true →
      processFs w0 false false "pool/c".data ⟨"true".data, "scratch".data, "".data⟩ =
        [Event.scratchNote "pool/c".data]) ∧
    check_orphans "pool/c".data "scratch".data (fun _ => "-".data) ["pool/c".data] =
      [Event.scratchNote "pool/c".data] :=
  C4_scratch_excluded_never_invoked w0 false false "pool/c".data
    ⟨"true".data, "scratch".data, "".data⟩ (fun _ => "-".data) ["pool/c".data] rfl

/-- C5: a destination entry that does not split into exactly a host and a
path around `:` yields exactly one error report and nothing else (in
particular no invocation); a well-formed entry yields events containing
an invocation and no such error; and the comma-split list is processed
entrywise, so a malformed entry never disturbs its siblings'
contributions. -/
theorem C5_malformed_dest_entry (w : World) (dry inc : Bool)
    (fs zabselect retention : List Char) :
    (∀ entry, (splitOnChar ':' entry).length ≠ 2 →
        destEntryEvents w dry inc fs zabselect retention entry =
          [Event.errServer entry]) ∧
    (∀ entry server path, splitOnChar ':' entry = [server, path] →
        (destEntryEvents w dry inc fs zabselect retention entry).any isInvoc = true ∧
        (destEntryEvents w dry inc fs zabselect retention entry).any isErrServer = false) ∧
    (∀ pre post entry,
        (pre ++ entry :: post).flatMap (destEntryEvents w dry inc fs zabselect retention) =
          pre.flatMap (destEntryEvents w dry inc fs zabselect retention) ++
            destEntryEvents w dry inc fs zabselect retention entry ++
            post.flatMap (destEntryEvents w dry inc fs zabselect retention)) := by
  refine ⟨?_, ?_, ?_⟩
  · intro entry h
    unfold destEntryEvents
    split
    · rename_i server path heq
      rw [heq] at h
      exact absurd rfl h
    · rfl
  · intro entry server path heq
    unfold destEntryEvents
    rw [heq]
    exact ⟨run_backup_any_isInvoc w dry fs zabselect server retention
             (pyReplaceChar '-' "/".data path) inc,
           run_backup_any_isErrServer w dry fs zabselect server retention
             (pyReplaceChar '-' "/".data path) inc⟩
  · intro pre post entry
    simp [List.flatMap_append, List.flatMap_cons, List.append_assoc]

theorem C5_witness :
    destEntryEvents w0 false false "pool/a".data "pool-a".data
        "651,1h10d,1d1y".data "hostonly".data = [Event.errServer "hostonly".data] ∧
    (destEntryEvents w0 false false "pool/a".data "pool-a".data
        "651,1h10d,1d1y".data "h1:data-a".data).any isInvoc = true := by
  have h := C5_malformed_dest_entry w0 false false "pool/a".data "pool-a".data
    "651,1h10d,1d1y".data
  exact ⟨h.1 "hostonly".data (by decide),
         (h.2.1 "h1:data-a".data "h1".data "data-a".data (by decide)).1⟩

/-- C6: a filesystem with inclusion tag `"true"` whose backup-type tag is
not a key of `BACKUP_TYPES` contributes exactly one unknown-backup-type
error report and no other event (so zero invocations), and the rest of
the run is unaffected: the whole-run event list splits around that single
error. -/
theorem C6_unknown_type_one_error (w : World) (dry inc : Bool) (fs : List Char)
    (tags : FsTags)
    (hinc : tags.inclusion = "true".data)
    (hty : lookupType tags.backuptype = none) :
    processFs w dry inc fs tags = [Event.errUnknownType fs] ∧
    (∀ pre post, zabwrapNormal w dry inc (pre ++ (fs, tags) :: post) =
        zabwrapNormal w dry inc pre ++
          Event.errUnknownType fs :: zabwrapNormal w dry inc post) := by
  have hc : containsSub "true".data tags.inclusion = true := by
    rw [hinc]
    decide
  have h1 : processFs w dry inc fs tags = [Event.errUnknownType fs] := by
    simp [processFs, hc, hty]
  refine ⟨h1, fun pre post => ?_⟩
  unfold zabwrapNormal
  rw [List.flatMap_append, List.flatMap_cons]
  simp [h1]

theorem C6_witness :
    processFs w0 false false "pool/a".data ⟨"true".data, "bogus".data, "".data⟩ =
      [Event.errUnknownType "pool/a".data] ∧
    zabwrapNormal w0 false false
        ([("pool/z".data, ⟨"false".data, "one".data, "".data⟩)] ++
          ("pool/a".data, ⟨"true".data, "bogus".data, "".data⟩) :: []) =
      zabwrapNormal w0 false false [("pool/z".data, ⟨"false".data, "one".data, "".data⟩)] ++
        Event.errUnknownType "pool/a".data :: zabwrapNormal w0 false false [] := by
  have h := C6_unknown_type_one_error w0 false false "pool/a".data
    ⟨"true".data, "bogus".data, "".data⟩ rfl (by decide)
  exact ⟨h.1, h.2 [("pool/z".data, ⟨"false".data, "one".data, "".data⟩)] []⟩

lemma all_flatMap_of {β : Type} (p : Event → Bool) (f : β → List Event)
    (l : List β) (h : ∀ b ∈ l, (f b).all p = true) :
    (l.flatMap f).all p = true := by
  rw [List.all_eq_true]
  intro e he
  rcases List.mem_flatMap.mp he with ⟨b, hb, hmem⟩
  exact List.all_eq_true.mp (h b hb) e hmem

lemma dryRunFrameOk_destEntryEvents (w : World) (inc : Bool)
    (fs zabselect retention entry : List Char) :
    (destEntryEvents w true inc fs zabselect retention entry).all
      (dryRunFrameOk fs) = true := by
  unfold destEntryEvents
  split
  · simp [run_backup, dryRunFrameOk, isExec]
  · simp [dryRunFrameOk, isExec]

/-- C8: in dry-run mode, for every filesystem and every tag state, the
real backup subprocess is never executed, and every status-tag write the
run performs on the filesystem is the `dry-run` status with the message
that no actual backup was performed. -/
theorem C8_dry_run_never_executes (w : World) (inc : Bool) (fs : List Char)
    (tags : FsTags) :
    (processFs w true inc fs tags).all (dryRunFrameOk fs) = true := by
  unfold processFs
  cases hb : containsSub "true".data tags.inclusion
  · simp
  · cases hl : lookupType tags.backuptype with
    | none => simp [dryRunFrameOk, isExec]
    | some ret =>
      by_cases hs : tags.backuptype = "scratch".data
      · simp [hs, dryRunFrameOk, isExec]
      · by_cases hsb : tags.backuptype = "sandbox".data
        · simp [hs, hsb, run_sandbox_backup, dryRunFrameOk, isExec]
        · simp only [hs, hsb, if_false, if_true, ite_true, ite_false, List.all_cons]
          have h1 : dryRunFrameOk fs (Event.readDest fs) = true := by
            simp [dryRunFrameOk, isExec]
          rw [h1, Bool.true_and]
          exact all_flatMap_of _ _ _
            (fun entry _ => dryRunFrameOk_destEntryEvents w inc fs (zabselectOf fs) ret entry)

end Zabwrap
